import Mathlib

/-!
# Native menu worker of the NativeMenuDemo plugin user interface

A shallow embedding of `src/plugin/NativeMenuDemoUI.cpp`: the class
`NativeMenuThread` (constructor, `stopThread`, `popUpMenu`,
`menu_item_callback`, `run`) and the two input handlers of `InfoExampleUI`
(`onMouse`, `onMotion`).

The worker thread body `run` is embedded statement by statement: a program
counter names the source line about to be executed, and one worker step
executes that statement.  The handlers running on the user interface thread
are whole operations that may be interleaved between any two worker
statements.  Every call that leaves the class (toolkit, logging, base class,
repaint) is appended to a trace, in program order.

The `int` members `mouse_X` and `mouse_Y` hold values between `INT_MIN` and
`INT_MAX`.  A value that fits is stored as it is; what a store of a value
that does not fit leaves behind is not defined by the source language and is
a parameter of the environment.
-/

namespace NativeMenu

/-! ## Values crossing the toolkit boundary -/

/-- A C pointer: `none` is NULL, `some h` is the object with handle `h`. -/
abbrev Ptr := Option Nat

/-- The toolkit struct `GdkRectangle`: four `int` members. -/
structure GdkRectangle where
  x : Int
  y : Int
  width : Int
  height : Int
deriving DecidableEq, Repr

/-- The two `GdkGravity` enumerators that the source passes. -/
inductive GdkGravity where
  | GDK_GRAVITY_NORTH_WEST
  | GDK_GRAVITY_SOUTH_WEST
deriving DecidableEq, Repr

/-- One call leaving the class, with the arguments (and, for calls whose
result is used, the result) it had.  The handler argument of
`g_signal_connect` is always `menu_item_callback` in the source and is not
recorded. -/
inductive Call where
  | gtk_init_check (result : Bool)
  | d_stderr2 (msg : String)
  | d_stderr (msg : String)
  | d_safe_assert (cond : String)
  | gdk_screen_get_default (result : Nat)
  | gdk_screen_get_root_window (screen : Ptr) (result : Nat)
  | gtk_menu_new (result : Nat)
  | gtk_menu_item_new_with_label (label : String) (result : Nat)
  | gtk_menu_shell_append (menu : Ptr) (item : Ptr)
  | g_signal_connect (object : Ptr) (signal : String) (user_data : String)
  | gdk_event_new (result : Nat)
  | gdk_screen_get_display (screen : Ptr) (result : Nat)
  | gdk_display_get_default_seat (display : Nat) (result : Nat)
  | gdk_seat_get_pointer (seat : Nat) (result : Nat)
  | gdk_event_set_device (event : Ptr) (device : Ptr)
  | gdk_event_set_screen (event : Ptr) (screen : Ptr)
  | gtk_widget_show_all (widget : Ptr)
  | gtk_main
  | gtk_widget_destroy (widget : Ptr)
  | gtk_main_quit
  | gtk_menu_popup_at_rect (menu : Ptr) (rect_window : Ptr) (rect : GdkRectangle)
      (rect_anchor : GdkGravity) (menu_anchor : GdkGravity) (trigger_event : Ptr)
  | Thread_stopThread (timeOutMilliseconds : Int)
  | repaint
deriving DecidableEq, Repr

/-- The calls made by the worker thread body `run` (source lines 76 to 122).
The remaining calls are made by the operations of the user interface thread
and by `menu_item_callback`. -/
def Call.byWorker : Call → Bool
  | .d_stderr _ => false
  | .d_safe_assert _ => false
  | .gtk_main_quit => false
  | .gtk_menu_popup_at_rect _ _ _ _ _ _ => false
  | .Thread_stopThread _ => false
  | .repaint => false
  | _ => true

/-- The calls into the GTK, GDK and GObject libraries, as opposed to the
logging helpers, the base class and the repaint request of the framework. -/
def Call.isToolkit : Call → Bool
  | .d_stderr2 _ => false
  | .d_stderr _ => false
  | .d_safe_assert _ => false
  | .Thread_stopThread _ => false
  | .repaint => false
  | _ => true

/-- The anchor rectangle of a menu display call, `none` for any other call. -/
def Call.displayRect : Call → Option GdkRectangle
  | .gtk_menu_popup_at_rect _ _ r _ _ _ => some r
  | _ => none

/-- The anchor rectangles of all menu display calls of a trace, in order. -/
def displayCalls (tr : List Call) : List GdkRectangle :=
  tr.filterMap Call.displayRect

/-! ## The class `NativeMenuThread` -/

/-- The member `GtkWidget *test_menu_item[3]`. -/
structure ItemArray where
  e0 : Ptr
  e1 : Ptr
  e2 : Ptr
deriving DecidableEq, Repr

/-- The array read `test_menu_item[i]` for `i < 3`. -/
def ItemArray.get (a : ItemArray) : Nat → Ptr
  | 0 => a.e0
  | 1 => a.e1
  | _ => a.e2

/-- The data members of `NativeMenuThread` (source lines 35 to 45). -/
structure NativeMenuThread where
  fIsGtkLoaded : Bool
  screen : Ptr
  root_window : Ptr
  test_menu : Ptr
  test_menu_item : ItemArray
  dummy_trigger_event : Ptr
  mouse_X : Int
  mouse_Y : Int
deriving DecidableEq, Repr

/-- The constructor (source line 47).  Its member initialiser list sets
`fIsGtkLoaded`, `mouse_X`, `mouse_Y` and `test_menu`; the other members keep
whatever the raw storage `raw` of the object held. -/
def NativeMenuThread.ctor (raw : NativeMenuThread) : NativeMenuThread :=
  { raw with fIsGtkLoaded := false, mouse_X := 0, mouse_Y := 0, test_menu := none }

/-- The program counter of the worker thread: the source line of `run` that
is executed next.  `l96 i` and `l100 i` are the heads of the two `for` loops
with loop variable `i`; `inMain` is the thread blocked inside `gtk_main`. -/
inductive Pc where
  | notStarted
  | l76
  | l78
  | l81
  | l82
  | l86
  | l89
  | l92
  | l93
  | l94
  | l95
  | l96 (i : Nat)
  | l100 (i : Nat)
  | l109
  | l110
  | l111
  | l114
  | l117
  | inMain
  | l119
  | l121
  | l122
  | returned
deriving DecidableEq, Repr

/-- What the surroundings of the class decide: the result of
`gtk_init_check`, the handles the GDK getters return, the value of the
framework constant `kMouseButtonRight`, which is declared outside the plugin
sources, and what the platform leaves in an `int` when the value assigned to
it does not fit. -/
structure Env where
  gtkInitOk : Bool
  screen : Nat
  root : Nat
  display : Nat
  seat : Nat
  pointer : Nat
  kMouseButtonRight : Nat
  intOverflow : Int → Int

/-- The least value of a C `int` (32 bits). -/
def INT_MIN : Int := -2147483648

/-- The greatest value of a C `int` (32 bits). -/
def INT_MAX : Int := 2147483647

/-- The value `v` fits a C `int`. -/
def fitsInt (v : Int) : Prop := INT_MIN ≤ v ∧ v ≤ INT_MAX

/-- The representative of `v` modulo 2^32 that fits a C `int`. -/
def wrapInt (v : Int) : Int := (v + 2147483648) % 4294967296 - 2147483648

/-- The content of an `int` member after the value `v` was assigned to it:
`v` itself when it fits, and otherwise some `int` chosen by the platform. -/
def storeInt (env : Env) (v : Int) : Int :=
  if INT_MIN ≤ v ∧ v ≤ INT_MAX then v else wrapInt (env.intOverflow v)

/-- The whole observable state: the object `fNativeMenuThread`, the program
counter of its thread, the trace of calls made so far, the next unused
handle of the toolkit allocator, and whether a `gtk_main_quit` has reached a
running main loop. -/
structure World where
  thread : NativeMenuThread
  pc : Pc
  trace : List Call
  nextHandle : Nat
  quitDelivered : Bool
deriving DecidableEq, Repr

/-- The state right after the constructor: the thread has not been started. -/
def World.initial (raw : NativeMenuThread) : World :=
  { thread := NativeMenuThread.ctor raw, pc := .notStarted, trace := [],
    nextHandle := 0, quitDelivered := false }

/-- The text `snprintf(buffer, 100, "MenuItem %d", i)` leaves in `buffer`:
at most 99 characters of the formatted string. -/
def menuItemText (i : Nat) : String :=
  String.mk (("MenuItem " ++ toString i).data.take 99)

/-- One statement of `run` (source lines 74 to 123), executed at the program
counter of the world.  Objects created by the toolkit get the next unused
handle.  At `inMain` the statement is the return of `gtk_main`. -/
def advance (env : Env) (w : World) : World :=
  match w.pc with
  | .notStarted => w
  | .l76 =>
      if env.gtkInitOk then
        { w with pc := .l81, trace := w.trace ++ [.gtk_init_check true] }
      else
        { w with pc := .l78, trace := w.trace ++ [.gtk_init_check false] }
  | .l78 =>
      { w with pc := .returned, trace := w.trace ++ [.d_stderr2 "ERROR: Cannot init GTK!"] }
  | .l81 =>
      { w with pc := .l82, trace := w.trace ++ [.d_stderr2 "Info: GTK started!"] }
  | .l82 =>
      { w with pc := .l86, thread := { w.thread with fIsGtkLoaded := true } }
  | .l86 =>
      { w with pc := .l89, thread := { w.thread with screen := some env.screen },
               trace := w.trace ++ [.gdk_screen_get_default env.screen] }
  | .l89 =>
      { w with pc := .l92, thread := { w.thread with root_window := some env.root },
               trace := w.trace ++ [.gdk_screen_get_root_window w.thread.screen env.root] }
  | .l92 =>
      { w with pc := .l93, thread := { w.thread with test_menu := some w.nextHandle },
               nextHandle := w.nextHandle + 1,
               trace := w.trace ++ [.gtk_menu_new w.nextHandle] }
  | .l93 =>
      { w with pc := .l94,
               thread := { w.thread with
                 test_menu_item := { w.thread.test_menu_item with e0 := some w.nextHandle } },
               nextHandle := w.nextHandle + 1,
               trace := w.trace ++ [.gtk_menu_item_new_with_label "MenuItem 0" w.nextHandle] }
  | .l94 =>
      { w with pc := .l95,
               thread := { w.thread with
                 test_menu_item := { w.thread.test_menu_item with e1 := some w.nextHandle } },
               nextHandle := w.nextHandle + 1,
               trace := w.trace ++ [.gtk_menu_item_new_with_label "MenuItem 1" w.nextHandle] }
  | .l95 =>
      { w with pc := .l96 0,
               thread := { w.thread with
                 test_menu_item := { w.thread.test_menu_item with e2 := some w.nextHandle } },
               nextHandle := w.nextHandle + 1,
               trace := w.trace ++ [.gtk_menu_item_new_with_label "MenuItem 2" w.nextHandle] }
  | .l96 i =>
      if i < 3 then
        { w with pc := .l96 (i + 1),
                 trace := w.trace ++
                   [.gtk_menu_shell_append w.thread.test_menu (w.thread.test_menu_item.get i)] }
      else
        { w with pc := .l100 0 }
  | .l100 i =>
      if i < 3 then
        { w with pc := .l100 (i + 1),
                 trace := w.trace ++
                   [.g_signal_connect (w.thread.test_menu_item.get i) "activate" (menuItemText i)] }
      else
        { w with pc := .l109 }
  | .l109 =>
      { w with pc := .l110, thread := { w.thread with dummy_trigger_event := some w.nextHandle },
               nextHandle := w.nextHandle + 1,
               trace := w.trace ++ [.gdk_event_new w.nextHandle] }
  | .l110 =>
      { w with pc := .l111,
               trace := w.trace ++
                 [.gdk_screen_get_display w.thread.screen env.display,
                  .gdk_display_get_default_seat env.display env.seat,
                  .gdk_seat_get_pointer env.seat env.pointer,
                  .gdk_event_set_device w.thread.dummy_trigger_event (some env.pointer)] }
  | .l111 =>
      { w with pc := .l114,
               trace := w.trace ++
                 [.gdk_screen_get_default env.screen,
                  .gdk_event_set_screen w.thread.dummy_trigger_event (some env.screen)] }
  | .l114 =>
      { w with pc := .l117, trace := w.trace ++ [.gtk_widget_show_all w.thread.test_menu] }
  | .l117 =>
      { w with pc := .inMain, trace := w.trace ++ [.gtk_main] }
  | .inMain =>
      { w with pc := .l119 }
  | .l119 =>
      { w with pc := .l121, trace := w.trace ++ [.gtk_widget_destroy w.thread.test_menu] }
  | .l121 =>
      { w with pc := .l122, trace := w.trace ++ [.d_stderr2 "Info: GTK exited!"] }
  | .l122 =>
      { w with pc := .returned, thread := { w.thread with fIsGtkLoaded := false } }
  | .returned => w

/-- One scheduling slot of the worker thread: it executes its next
statement, except that inside `gtk_main` it stays blocked until a
`gtk_main_quit` has been delivered to the loop. -/
def workerStep (env : Env) (w : World) : World :=
  if w.pc = .inMain ∧ w.quitDelivered = false then w else advance env w

/-- The method `stopThread` (source lines 50 to 56).  The base class call
`Thread::stopThread` is recorded with its argument; a `gtk_main_quit` issued
while the main loop runs makes that loop return. -/
def stopThread (timeOutMilliseconds : Int) (w : World) : World :=
  let w1 : World :=
    if w.thread.fIsGtkLoaded then
      { w with trace := w.trace ++ [.gtk_main_quit],
               quitDelivered := w.quitDelivered || decide (w.pc = .inMain) }
    else w
  { w1 with trace := w1.trace ++ [.Thread_stopThread timeOutMilliseconds] }

/-- The method `popUpMenu` (source lines 58 to 66).  `raw` is what the
storage of the local variable `rectangle` holds when it is declared: the
source assigns its members `x` and `y` only.  The guard macro
`DISTRHO_SAFE_ASSERT_RETURN` reports the failed condition and returns. -/
def popUpMenu (raw : GdkRectangle) (w : World) : World :=
  if w.thread.test_menu.isSome && (w.thread.fIsGtkLoaded == true) then
    let rectangle : GdkRectangle := { raw with x := w.thread.mouse_X, y := w.thread.mouse_Y }
    { w with trace := w.trace ++
        [.gtk_menu_popup_at_rect w.thread.test_menu w.thread.root_window rectangle
          .GDK_GRAVITY_NORTH_WEST .GDK_GRAVITY_SOUTH_WEST w.thread.dummy_trigger_event] }
  else
    { w with trace := w.trace ++ [.d_safe_assert "test_menu && fIsGtkLoaded == true"] }

/-- The static method `menu_item_callback` (source lines 68 to 71). -/
def menu_item_callback (user_data : String) (w : World) : World :=
  { w with trace := w.trace ++ [.d_stderr ("Clicked menu item: " ++ user_data)] }

/-! ## The input handlers of `InfoExampleUI` -/

/-- Modelled from the spec: the framework event record of a mouse button
notification is declared outside the plugin sources.  `button` is the member
that `onMouse` compares, `press` tells a press from a release, and the
position is the local pointer position in integer coordinates. -/
structure MouseEvent where
  button : Nat
  press : Bool
  posX : Int
  posY : Int
deriving DecidableEq, Repr

/-- Modelled from the spec: the framework event record of a pointer motion
notification is declared outside the plugin sources.  The members are the
local pointer position that `ev.pos.getX()` and `ev.pos.getY()` return, in
the integer coordinates of the data model. -/
structure MotionEvent where
  posX : Int
  posY : Int
deriving DecidableEq, Repr

/-- The handler `InfoExampleUI::onMouse` (source lines 229 to 236), with the
state of `fNativeMenuThread` passed explicitly; the result is the returned
flag and the new state. -/
def onMouse (env : Env) (ev : MouseEvent) (raw : GdkRectangle) (w : World) : Bool × World :=
  let w1 : World := if ev.button = env.kMouseButtonRight then popUpMenu raw w else w
  (true, w1)

/-- The handler `InfoExampleUI::onMotion` (source lines 238 to 247).
`offsetX` and `offsetY` are what `getWindow().getOffsetX()` and
`getWindow().getOffsetY()` return.  The two sums are assigned to the `int`
members `mouse_X` and `mouse_Y`. -/
def onMotion (env : Env) (ev : MotionEvent) (offsetX offsetY : Int) (w : World) :
    Bool × World :=
  let t1 : NativeMenuThread := { w.thread with mouse_X := storeInt env (ev.posX + offsetX) }
  let t2 : NativeMenuThread := { t1 with mouse_Y := storeInt env (ev.posY + offsetY) }
  (true, { w with thread := t2, trace := w.trace ++ [.repaint] })

/-! ## Interleavings -/

/-- The operations that change the state: the single `startThread` call of
the `InfoExampleUI` constructor (source line 155), one statement of the
worker thread, and the operations of the user interface thread. -/
inductive Op where
  | startThread
  | worker
  | popUpMenu (raw : GdkRectangle)
  | onMouse (ev : MouseEvent) (raw : GdkRectangle)
  | onMotion (ev : MotionEvent) (offsetX offsetY : Int)
  | stopThread (timeOutMilliseconds : Int)
deriving DecidableEq, Repr

/-- Modelled from the spec: `Thread::startThread` belongs to the framework
base class, outside the plugin sources; it spawns the thread, which enters
`run`, and returns immediately.  A thread that was already started is left
alone. -/
def startThread (w : World) : World :=
  if w.pc = .notStarted then { w with pc := .l76 } else w

/-- The effect of one operation. -/
def step (env : Env) (w : World) : Op → World
  | .startThread => startThread w
  | .worker => workerStep env w
  | .popUpMenu raw => popUpMenu raw w
  | .onMouse ev raw => (onMouse env ev raw w).2
  | .onMotion ev ox oy => (onMotion env ev ox oy w).2
  | .stopThread t => stopThread t w

/-- The effect of a sequence of operations, first to last. -/
def exec (env : Env) (w : World) (ops : List Op) : World :=
  ops.foldl (step env) w

/-- The states reachable from a freshly constructed object. -/
def Reachable (env : Env) (w : World) : Prop :=
  ∃ raw ops, exec env (World.initial raw) ops = w

/-- The worker states of the specification. -/
inductive Phase where
  | NotStarted
  | Initializing
  | Running
  | Unwinding
  | Stopped
deriving DecidableEq, Repr

/-- The worker state at a program counter: `Initializing` from thread entry
up to the call of `gtk_main`, `Running` inside `gtk_main`, `Unwinding` from
the return of `gtk_main` until `run` returns, `Stopped` afterwards. -/
def phase : Pc → Phase
  | .notStarted => .NotStarted
  | .inMain => .Running
  | .l119 => .Unwinding
  | .l121 => .Unwinding
  | .l122 => .Unwinding
  | .returned => .Stopped
  | _ => .Initializing

/-! ## The menu as the toolkit holds it -/

/-- The items appended to `menu`, in the order of the append calls. -/
def menuChildren (tr : List Call) (menu : Ptr) : List Ptr :=
  tr.filterMap fun c =>
    match c with
    | .gtk_menu_shell_append m i => if m = menu then some i else none
    | _ => none

/-- The labels with which the object `item` was created. -/
def itemLabels (tr : List Call) (item : Ptr) : List String :=
  tr.filterMap fun c =>
    match c with
    | .gtk_menu_item_new_with_label l r => if some r = item then some l else none
    | _ => none

/-- The payloads of the handlers connected to the signal `activate` of
`item`, in connection order. -/
def activateHandlers (tr : List Call) (item : Ptr) : List String :=
  tr.filterMap fun c =>
    match c with
    | .g_signal_connect o s d => if o = item ∧ s = "activate" then some d else none
    | _ => none

/-- The toolkit emitting `activate` on `item`: every connected handler,
which in this program is `menu_item_callback`, runs once with its payload. -/
def activate (item : Ptr) (w : World) : World :=
  (activateHandlers w.trace item).foldl (fun acc d => menu_item_callback d acc) w

/-! ## The part of the state owned by the worker thread -/

/-- What the worker thread reads and writes: its program counter, the
members other than the pointer position, the allocator, and its own calls. -/
structure View where
  pc : Pc
  thread : NativeMenuThread
  nextHandle : Nat
  workerCalls : List Call
deriving DecidableEq, Repr

/-- The worker part of a world. -/
def view (w : World) : View :=
  { pc := w.pc, thread := { w.thread with mouse_X := 0, mouse_Y := 0 },
    nextHandle := w.nextHandle, workerCalls := w.trace.filter Call.byWorker }

/-- The world after the first `n` statements of `run`, executed without any
other operation in between. -/
def runFrom (env : Env) (raw : NativeMenuThread) (n : Nat) : World :=
  (advance env)^[n] { World.initial raw with pc := .l76 }

/-- The number of statements `run` has executed when it stands at `pc`. -/
def stmtIndex (env : Env) : Pc → Nat
  | .notStarted => 0
  | .l76 => 0
  | .l78 => 1
  | .l81 => 1
  | .l82 => 2
  | .l86 => 3
  | .l89 => 4
  | .l92 => 5
  | .l93 => 6
  | .l94 => 7
  | .l95 => 8
  | .l96 i => 9 + i
  | .l100 i => 13 + i
  | .l109 => 17
  | .l110 => 18
  | .l111 => 19
  | .l114 => 20
  | .l117 => 21
  | .inMain => 22
  | .l119 => 23
  | .l121 => 24
  | .l122 => 25
  | .returned => if env.gtkInitOk then 26 else 2

/-- The program counters `run` can stand at, given the result of the
toolkit initialisation. -/
def pcValid (env : Env) : Pc → Prop
  | .notStarted => True
  | .l76 => True
  | .l78 => env.gtkInitOk = false
  | .returned => True
  | .l96 i => env.gtkInitOk = true ∧ i ≤ 3
  | .l100 i => env.gtkInitOk = true ∧ i ≤ 3
  | _ => env.gtkInitOk = true

/-- The world in which `run`, executed alone, stands at `pc`. -/
def canon (env : Env) (raw : NativeMenuThread) (pc : Pc) : World :=
  if pc = .notStarted then World.initial raw else runFrom env raw (stmtIndex env pc)

/-- The worker part of a world is the one `run` has at this program counter. -/
def WorkerInv (env : Env) (raw : NativeMenuThread) (w : World) : Prop :=
  pcValid env w.pc ∧ view w = view (canon env raw w.pc)

/-- The program counters at which `fIsGtkLoaded` is true: after the
assignment in line 82 and before the one in line 122. -/
def loadedAt : Pc → Bool
  | .notStarted => false
  | .l76 => false
  | .l78 => false
  | .l81 => false
  | .l82 => false
  | .returned => false
  | _ => true

/-- The program counters at which `test_menu` is not NULL: after the
assignment in line 92, for good. -/
def menuSetAt (env : Env) : Pc → Bool
  | .notStarted => false
  | .l76 => false
  | .l78 => false
  | .l81 => false
  | .l82 => false
  | .l86 => false
  | .l89 => false
  | .l92 => false
  | .returned => env.gtkInitOk
  | _ => true

/-- The calls `run` has made when it blocks inside `gtk_main`, after a
successful initialisation and starting from an unused allocator. -/
def mainCalls (env : Env) : List Call :=
  [Call.gtk_init_check true,
   Call.d_stderr2 "Info: GTK started!",
   Call.gdk_screen_get_default env.screen,
   Call.gdk_screen_get_root_window (some env.screen) env.root,
   Call.gtk_menu_new 0,
   Call.gtk_menu_item_new_with_label "MenuItem 0" 1,
   Call.gtk_menu_item_new_with_label "MenuItem 1" 2,
   Call.gtk_menu_item_new_with_label "MenuItem 2" 3,
   Call.gtk_menu_shell_append (some 0) (some 1),
   Call.gtk_menu_shell_append (some 0) (some 2),
   Call.gtk_menu_shell_append (some 0) (some 3),
   Call.g_signal_connect (some 1) "activate" (menuItemText 0),
   Call.g_signal_connect (some 2) "activate" (menuItemText 1),
   Call.g_signal_connect (some 3) "activate" (menuItemText 2),
   Call.gdk_event_new 4,
   Call.gdk_screen_get_display (some env.screen) env.display,
   Call.gdk_display_get_default_seat env.display env.seat,
   Call.gdk_seat_get_pointer env.seat env.pointer,
   Call.gdk_event_set_device (some 4) (some env.pointer),
   Call.gdk_screen_get_default env.screen,
   Call.gdk_event_set_screen (some 4) (some env.screen),
   Call.gtk_widget_show_all (some 0),
   Call.gtk_main]

/-! ## Concrete environments and schedules -/

/-- An environment in which the toolkit initialises. -/
def envOk : Env :=
  { gtkInitOk := true, screen := 100, root := 101, display := 102, seat := 103,
    pointer := 104, kMouseButtonRight := 3, intOverflow := fun _ => -2147483648 }

/-- An environment in which the toolkit fails to initialise. -/
def envFail : Env := { envOk with gtkInitOk := false }

/-- Some contents of the raw storage of the object. -/
def rawThread : NativeMenuThread :=
  { fIsGtkLoaded := true, screen := some 7, root_window := none, test_menu := some 9,
    test_menu_item := { e0 := some 1, e1 := none, e2 := some 5 },
    dummy_trigger_event := some 11, mouse_X := -4, mouse_Y := 12 }

/-- Some contents of the raw storage of the local rectangle. -/
def rawRect : GdkRectangle := { x := 5, y := -6, width := 7, height := 9 }

/-- The schedule that starts the thread and lets it run into `gtk_main`. -/
def opsToMain : List Op := .startThread :: List.replicate 22 .worker

/-- A worker blocked inside `gtk_main`. -/
def wRunning : World := exec envOk (World.initial rawThread) opsToMain

/-- A worker that has created the menu object (line 92) and stands at line 93. -/
def wMenuCreated : World :=
  exec envOk (World.initial rawThread) (.startThread :: List.replicate 6 .worker)

/-- A worker that has set `fIsGtkLoaded` (line 82) and stands at line 86. -/
def wLoadedNoMenu : World :=
  exec envOk (World.initial rawThread) (.startThread :: List.replicate 3 .worker)

/-- A worker whose `gtk_main` has returned after `stopThread`, at line 119. -/
def wUnwinding : World :=
  exec envOk (World.initial rawThread) (opsToMain ++ [.stopThread (-1), .worker])

/-- A worker that has run to the end after `stopThread`. -/
def wStopped : World :=
  exec envOk (World.initial rawThread)
    (opsToMain ++ [.stopThread (-1), .worker, .worker, .worker, .worker])

/-- A worker that has just entered `run`, in an environment where the
toolkit fails to initialise. -/
def wEntryFail : World := exec envFail (World.initial rawThread) [.startThread]

/-- A worker that has just entered `run`, in an environment where the
toolkit initialises. -/
def wEntryOk : World := exec envOk (World.initial rawThread) [.startThread]

/-- A worker that has returned from `run` after a failed initialisation. -/
def wFailed : World := exec envFail wEntryFail [.worker, .worker]

/-- Whether the worker has begun shutdown: `gtk_main` has returned, or `run`
has. -/
def begunShutdown (pc : Pc) : Bool :=
  decide (phase pc = .Unwinding) || decide (phase pc = .Stopped)

/-- A sequence of pointer reports: motion events, each with the window
offset at its time, handled by `onMotion` one after the other. -/
def reportAll (env : Env) (evs : List (MotionEvent × Int × Int)) (w : World) : World :=
  evs.foldl (fun acc e => (onMotion env e.1 e.2.1 e.2.2 acc).2) w

/-! ## The worker part of the state -/

theorem view_advance_congr (env : Env) (w w' : World) (h : view w = view w') :
    view (advance env w) = view (advance env w') := by
  rcases w with ⟨⟨f, sc, rw, tm, ti, de, mx, my⟩, pc, tr, nh, q⟩
  rcases w' with ⟨⟨f', sc', rw', tm', ti', de', mx', my'⟩, pc', tr', nh', q'⟩
  simp only [view, View.mk.injEq, NativeMenuThread.mk.injEq] at h
  obtain ⟨rfl, ⟨rfl, rfl, rfl, rfl, rfl, rfl, -, -⟩, rfl, htr⟩ := h
  cases pc <;> simp only [advance] <;> (try split) <;>
    simp [view, List.filter_append, htr, Call.byWorker]

theorem view_popUpMenu (raw : GdkRectangle) (w : World) : view (popUpMenu raw w) = view w := by
  unfold popUpMenu
  split <;> simp [view, List.filter_append, Call.byWorker]

theorem view_stopThread (t : Int) (w : World) : view (stopThread t w) = view w := by
  unfold stopThread
  by_cases h : w.thread.fIsGtkLoaded = true <;>
    simp [h, view, List.filter_append, Call.byWorker]

theorem view_onMotion (env : Env) (ev : MotionEvent) (ox oy : Int) (w : World) :
    view (onMotion env ev ox oy w).2 = view w := by
  simp [onMotion, view, List.filter_append, Call.byWorker]

theorem view_onMouse (env : Env) (ev : MouseEvent) (raw : GdkRectangle) (w : World) :
    view (onMouse env ev raw w).2 = view w := by
  unfold onMouse
  by_cases h : ev.button = env.kMouseButtonRight <;> simp [h, view_popUpMenu]

theorem canon_advance (env : Env) (raw : NativeMenuThread) (pc : Pc) (hv : pcValid env pc) :
    pcValid env (advance env (canon env raw pc)).pc ∧
      advance env (canon env raw pc) = canon env raw (advance env (canon env raw pc)).pc := by
  obtain ⟨ok, sc, rt, dp, st, pt, kr, ov⟩ := env
  cases pc with
  | l96 i =>
      obtain ⟨h1, h2⟩ := hv
      simp only at h1
      subst h1
      interval_cases i <;> exact ⟨⟨rfl, by decide⟩, rfl⟩
  | l100 i =>
      obtain ⟨h1, h2⟩ := hv
      simp only at h1
      subst h1
      interval_cases i <;> first | exact ⟨⟨rfl, by decide⟩, rfl⟩ | exact ⟨rfl, rfl⟩
  | notStarted => exact ⟨trivial, rfl⟩
  | l76 => cases ok <;> exact ⟨rfl, rfl⟩
  | returned => cases ok <;> exact ⟨trivial, rfl⟩
  | _ =>
      simp only [pcValid] at hv
      subst hv
      first
        | exact ⟨rfl, rfl⟩
        | exact ⟨trivial, rfl⟩
        | exact ⟨⟨rfl, by decide⟩, rfl⟩

theorem canon_pc (env : Env) (raw : NativeMenuThread) (pc : Pc) (hv : pcValid env pc) :
    (canon env raw pc).pc = pc := by
  obtain ⟨ok, sc, rt, dp, st, pt, kr, ov⟩ := env
  cases pc with
  | l96 i =>
      obtain ⟨h1, h2⟩ := hv
      simp only at h1
      subst h1
      interval_cases i <;> rfl
  | l100 i =>
      obtain ⟨h1, h2⟩ := hv
      simp only at h1
      subst h1
      interval_cases i <;> rfl
  | notStarted => rfl
  | l76 => rfl
  | returned => cases ok <;> rfl
  | _ =>
      simp only [pcValid] at hv
      subst hv
      rfl

theorem view_pc (w : World) : (view w).pc = w.pc := rfl

theorem inv_of_view_eq (env : Env) (raw : NativeMenuThread) (w w' : World)
    (hv : view w' = view w) (h : WorkerInv env raw w) : WorkerInv env raw w' := by
  have hpc : w'.pc = w.pc := by
    have := congrArg View.pc hv
    simpa [view_pc] using this
  unfold WorkerInv at *
  rw [hpc, hv]
  exact h

theorem inv_initial (env : Env) (raw : NativeMenuThread) :
    WorkerInv env raw (World.initial raw) :=
  ⟨trivial, rfl⟩

theorem inv_startThread (env : Env) (raw : NativeMenuThread) (w : World)
    (h : WorkerInv env raw w) : WorkerInv env raw (startThread w) := by
  unfold startThread
  split
  · next hpc =>
      obtain ⟨-, hv⟩ := h
      rw [hpc] at hv
      refine ⟨trivial, ?_⟩
      have h2 : view { w with pc := Pc.l76 } = { view w with pc := Pc.l76 } := rfl
      rw [h2, hv]
      rfl
  · exact h

theorem inv_advance (env : Env) (raw : NativeMenuThread) (w : World)
    (h : WorkerInv env raw w) : WorkerInv env raw (advance env w) := by
  obtain ⟨hval, hv⟩ := h
  have hc := view_advance_congr env w (canon env raw w.pc) hv
  obtain ⟨hval', hcan⟩ := canon_advance env raw w.pc hval
  have hpc : (advance env w).pc = (advance env (canon env raw w.pc)).pc := by
    have := congrArg View.pc hc
    simpa [view_pc] using this
  refine ⟨by rw [hpc]; exact hval', ?_⟩
  rw [hc, hpc, ← hcan]

theorem inv_step (env : Env) (raw : NativeMenuThread) (w : World) (op : Op)
    (h : WorkerInv env raw w) : WorkerInv env raw (step env w op) := by
  cases op with
  | startThread => exact inv_startThread env raw w h
  | worker =>
      show WorkerInv env raw (workerStep env w)
      unfold workerStep
      split
      · exact h
      · exact inv_advance env raw w h
  | popUpMenu r => exact inv_of_view_eq env raw w _ (view_popUpMenu r w) h
  | onMouse ev r => exact inv_of_view_eq env raw w _ (view_onMouse env ev r w) h
  | onMotion ev ox oy => exact inv_of_view_eq env raw w _ (view_onMotion env ev ox oy w) h
  | stopThread t => exact inv_of_view_eq env raw w _ (view_stopThread t w) h

theorem inv_exec (env : Env) (raw : NativeMenuThread) (ops : List Op) :
    ∀ w : World, WorkerInv env raw w → WorkerInv env raw (exec env w ops) := by
  induction ops with
  | nil => intro w h; exact h
  | cons op rest ih =>
      intro w h
      exact ih (step env w op) (inv_step env raw w op h)

theorem inv_of_reachable (env : Env) (w : World) (h : Reachable env w) :
    ∃ raw, WorkerInv env raw w := by
  obtain ⟨raw, ops, rfl⟩ := h
  exact ⟨raw, inv_exec env raw ops _ (inv_initial env raw)⟩

theorem exec_append (env : Env) (w : World) (ops ops' : List Op) :
    exec env w (ops ++ ops') = exec env (exec env w ops) ops' := by
  simp [exec, List.foldl_append]

theorem reachable_exec (env : Env) (w : World) (ops : List Op) (h : Reachable env w) :
    Reachable env (exec env w ops) := by
  obtain ⟨raw, ops0, rfl⟩ := h
  exact ⟨raw, ops0 ++ ops, exec_append env _ ops0 ops⟩

theorem inv_thread (env : Env) (raw : NativeMenuThread) (w : World)
    (h : WorkerInv env raw w) :
    w.thread.fIsGtkLoaded = (canon env raw w.pc).thread.fIsGtkLoaded ∧
      w.thread.test_menu = (canon env raw w.pc).thread.test_menu ∧
      w.thread.test_menu_item = (canon env raw w.pc).thread.test_menu_item ∧
      w.trace.filter Call.byWorker = (canon env raw w.pc).trace.filter Call.byWorker := by
  obtain ⟨-, hv⟩ := h
  have h1 := congrArg (fun v => v.thread.fIsGtkLoaded) hv
  have h2 := congrArg (fun v => v.thread.test_menu) hv
  have h3 := congrArg (fun v => v.thread.test_menu_item) hv
  have h4 := congrArg View.workerCalls hv
  exact ⟨h1, h2, h3, h4⟩

theorem canon_fields (env : Env) (raw : NativeMenuThread) (pc : Pc) (hv : pcValid env pc) :
    (canon env raw pc).thread.fIsGtkLoaded = loadedAt pc ∧
      (canon env raw pc).thread.test_menu = (if menuSetAt env pc then some 0 else none) := by
  obtain ⟨ok, sc, rt, dp, st, pt, kr, ov⟩ := env
  cases pc with
  | l96 i =>
      obtain ⟨h1, h2⟩ := hv
      simp only at h1
      subst h1
      interval_cases i <;> exact ⟨rfl, rfl⟩
  | l100 i =>
      obtain ⟨h1, h2⟩ := hv
      simp only at h1
      subst h1
      interval_cases i <;> exact ⟨rfl, rfl⟩
  | notStarted => exact ⟨rfl, rfl⟩
  | l76 => exact ⟨rfl, rfl⟩
  | returned => cases ok <;> exact ⟨rfl, rfl⟩
  | _ =>
      simp only [pcValid] at hv
      subst hv
      exact ⟨rfl, rfl⟩

theorem fields_of_inv (env : Env) (raw : NativeMenuThread) (w : World)
    (h : WorkerInv env raw w) :
    w.thread.fIsGtkLoaded = loadedAt w.pc ∧
      w.thread.test_menu = (if menuSetAt env w.pc then some 0 else none) := by
  obtain ⟨h1, h2, -, -⟩ := inv_thread env raw w h
  obtain ⟨c1, c2⟩ := canon_fields env raw w.pc h.1
  exact ⟨h1.trans c1, h2.trans c2⟩

theorem fields_of_reachable (env : Env) (w : World) (h : Reachable env w) :
    pcValid env w.pc ∧ w.thread.fIsGtkLoaded = loadedAt w.pc ∧
      w.thread.test_menu = (if menuSetAt env w.pc then some 0 else none) := by
  obtain ⟨raw, hi⟩ := inv_of_reachable env w h
  exact ⟨hi.1, fields_of_inv env raw w hi⟩

theorem reportAll_frame (env : Env) (evs : List (MotionEvent × Int × Int)) :
    ∀ w : World, (reportAll env evs w).pc = w.pc ∧
      (reportAll env evs w).thread.fIsGtkLoaded = w.thread.fIsGtkLoaded ∧
      (reportAll env evs w).thread.test_menu = w.thread.test_menu ∧
      (reportAll env evs w).thread.root_window = w.thread.root_window ∧
      (reportAll env evs w).thread.dummy_trigger_event = w.thread.dummy_trigger_event ∧
      displayCalls (reportAll env evs w).trace = displayCalls w.trace := by
  induction evs with
  | nil => intro w; exact ⟨rfl, rfl, rfl, rfl, rfl, rfl⟩
  | cons e rest ih =>
      intro w
      have h := ih (onMotion env e.1 e.2.1 e.2.2 w).2
      have hd : displayCalls (onMotion env e.1 e.2.1 e.2.2 w).2.trace =
          displayCalls w.trace := by
        simp [onMotion, displayCalls, List.filterMap_append, Call.displayRect]
      obtain ⟨h1, h2, h3, h4, h5, h6⟩ := h
      exact ⟨h1, h2, h3, h4, h5, h6.trans hd⟩

theorem reportAll_last (env : Env) (evs : List (MotionEvent × Int × Int)) (hne : evs ≠ [])
    (w : World) :
    (reportAll env evs w).thread.mouse_X =
        storeInt env ((evs.getLast hne).1.posX + (evs.getLast hne).2.1) ∧
      (reportAll env evs w).thread.mouse_Y =
        storeInt env ((evs.getLast hne).1.posY + (evs.getLast hne).2.2) := by
  have hsplit := List.dropLast_append_getLast hne
  have hrun : reportAll env evs w =
      (onMotion env (evs.getLast hne).1 (evs.getLast hne).2.1 (evs.getLast hne).2.2
        (reportAll env evs.dropLast w)).2 := by
    conv_lhs => rw [← hsplit]
    simp [reportAll, List.foldl_append]
  rw [hrun]
  exact ⟨rfl, rfl⟩

theorem storeInt_of_fits (env : Env) (v : Int) (h : fitsInt v) : storeInt env v = v := by
  unfold storeInt
  exact if_pos h

theorem wrapInt_fits (v : Int) : fitsInt (wrapInt v) := by
  unfold fitsInt wrapInt INT_MIN INT_MAX
  constructor <;> omega

theorem storeInt_fits (env : Env) (v : Int) : fitsInt (storeInt env v) := by
  unfold storeInt
  split
  · next h => exact h
  · exact wrapInt_fits _

theorem popUpMenu_guard_fails (raw : GdkRectangle) (w : World)
    (h : w.thread.test_menu = none ∨ w.thread.fIsGtkLoaded = false) :
    popUpMenu raw w =
      { w with trace := w.trace ++ [.d_safe_assert "test_menu && fIsGtkLoaded == true"] } := by
  unfold popUpMenu
  rcases h with h | h <;> simp [h]

theorem popUpMenu_guard_passes (raw : GdkRectangle) (w : World)
    (h1 : w.thread.test_menu ≠ none) (h2 : w.thread.fIsGtkLoaded = true) :
    popUpMenu raw w =
      { w with trace := w.trace ++
          [.gtk_menu_popup_at_rect w.thread.test_menu w.thread.root_window
            { raw with x := w.thread.mouse_X, y := w.thread.mouse_Y }
            .GDK_GRAVITY_NORTH_WEST .GDK_GRAVITY_SOUTH_WEST w.thread.dummy_trigger_event] } := by
  unfold popUpMenu
  have h3 : w.thread.test_menu.isSome = true := by
    cases hm : w.thread.test_menu with
    | none => exact absurd hm h1
    | some m => rfl
  simp [h2, h3]

theorem running_fields (env : Env) (w : World) (h : Reachable env w)
    (hr : phase w.pc = .Running) :
    w.thread.test_menu = some 0 ∧ w.thread.fIsGtkLoaded = true := by
  obtain ⟨-, hf, hm⟩ := fields_of_reachable env w h
  have hpc : w.pc = .inMain := by
    cases hp : w.pc <;> simp [hp, phase] at hr
    rfl
  rw [hpc] at hf hm
  exact ⟨hm, hf⟩

theorem unloaded_when_unstarted_or_failed (env : Env) (w : World) (h : Reachable env w)
    (hc : w.pc = .notStarted ∨ env.gtkInitOk = false) :
    w.thread.test_menu = none ∧ w.thread.fIsGtkLoaded = false := by
  obtain ⟨hv, hf, hm⟩ := fields_of_reachable env w h
  rw [hf, hm]
  rcases hc with hc | hc
  · simp [hc, menuSetAt, loadedAt]
  · cases hp : w.pc <;> simp [hp, pcValid, hc, menuSetAt, loadedAt] at hv ⊢

/-! ## The popup guard -/

/-- C1, as stated, fails.  After `gtk_main` has returned (line 119, worker
state Unwinding) and also between the creation of the menu and the call of
`gtk_main` (line 93, worker state Initializing), `test_menu` is not NULL and
`fIsGtkLoaded` is true, so `popUpMenu` passes its guard and issues the
display call. -/
theorem popUpMenu_displays_outside_running :
    (Reachable envOk wUnwinding ∧ phase wUnwinding.pc = .Unwinding ∧
        displayCalls (popUpMenu rawRect wUnwinding).trace ≠ displayCalls wUnwinding.trace) ∧
      (Reachable envOk wMenuCreated ∧ phase wMenuCreated.pc = .Initializing ∧
        displayCalls (popUpMenu rawRect wMenuCreated).trace ≠
          displayCalls wMenuCreated.trace) :=
  ⟨⟨⟨rawThread, _, rfl⟩, by decide, by decide⟩, ⟨⟨rawThread, _, rfl⟩, by decide, by decide⟩⟩

/-- C1, amended.  In every reachable state in which `test_menu` is NULL or
`fIsGtkLoaded` is false, and so in every NotStarted and every Stopped state,
`popUpMenu` only reports the failed guard: it issues no toolkit call, no
display call, and leaves the object and the worker untouched. -/
theorem popUpMenu_noop_when_guard_fails (env : Env) (w : World) (raw : GdkRectangle)
    (h : Reachable env w)
    (hs : phase w.pc = .NotStarted ∨ phase w.pc = .Stopped ∨
      w.thread.test_menu = none ∨ w.thread.fIsGtkLoaded = false) :
    popUpMenu raw w =
        { w with trace := w.trace ++ [.d_safe_assert "test_menu && fIsGtkLoaded == true"] } ∧
      displayCalls (popUpMenu raw w).trace = displayCalls w.trace ∧
      (popUpMenu raw w).trace.filter Call.isToolkit = w.trace.filter Call.isToolkit ∧
      (popUpMenu raw w).thread = w.thread := by
  obtain ⟨-, hf, -⟩ := fields_of_reachable env w h
  have hg : w.thread.test_menu = none ∨ w.thread.fIsGtkLoaded = false := by
    rcases hs with hs | hs | hs | hs
    · right
      rw [hf]
      cases hp : w.pc <;> simp [hp, phase] at hs
      rfl
    · right
      rw [hf]
      cases hp : w.pc <;> simp [hp, phase] at hs
      rfl
    · exact Or.inl hs
    · exact Or.inr hs
  have he := popUpMenu_guard_fails raw w hg
  refine ⟨he, ?_, ?_, ?_⟩
  · rw [he]
    simp [displayCalls, List.filterMap_append, Call.displayRect]
  · rw [he]
    simp [List.filter_append, Call.isToolkit]
  · rw [he]

/-- Witness of the amended C1: a stopped worker after a failed initialisation. -/
theorem popUpMenu_noop_when_guard_fails_witness :
    Reachable envFail wFailed ∧
      phase wFailed.pc = .Stopped ∧
      displayCalls (popUpMenu rawRect wFailed).trace =
        displayCalls wFailed.trace :=
  ⟨⟨rawThread, [.startThread, .worker, .worker], rfl⟩, by decide,
    (popUpMenu_noop_when_guard_fails envFail wFailed rawRect
      ⟨rawThread, [.startThread, .worker, .worker], rfl⟩ (Or.inr (Or.inl (by decide)))).2.1⟩

/-- C2.  In the Running state, after any non-empty sequence of pointer
reports, `popUpMenu` issues exactly one call, the display call, and the
origin of its anchor rectangle is the pair of `int` values that the last
report wrote to `mouse_X` and `mouse_Y`, never an older one; when local
position plus window offset of the last report fits an `int`, that is the
sum itself. -/
theorem popUpMenu_anchor_is_last_report (env : Env) (w : World) (h : Reachable env w)
    (hr : phase w.pc = .Running) (evs : List (MotionEvent × Int × Int)) (hne : evs ≠ [])
    (raw : GdkRectangle) :
    ∃ rect : GdkRectangle,
      popUpMenu raw (reportAll env evs w) =
          { reportAll env evs w with trace := (reportAll env evs w).trace ++
              [.gtk_menu_popup_at_rect w.thread.test_menu w.thread.root_window rect
                .GDK_GRAVITY_NORTH_WEST .GDK_GRAVITY_SOUTH_WEST w.thread.dummy_trigger_event] } ∧
        rect.x = (reportAll env evs w).thread.mouse_X ∧
        rect.y = (reportAll env evs w).thread.mouse_Y ∧
        rect.x =
          (onMotion env (evs.getLast hne).1 (evs.getLast hne).2.1 (evs.getLast hne).2.2
            (reportAll env evs.dropLast w)).2.thread.mouse_X ∧
        rect.y =
          (onMotion env (evs.getLast hne).1 (evs.getLast hne).2.1 (evs.getLast hne).2.2
            (reportAll env evs.dropLast w)).2.thread.mouse_Y ∧
        (fitsInt ((evs.getLast hne).1.posX + (evs.getLast hne).2.1) →
          rect.x = (evs.getLast hne).1.posX + (evs.getLast hne).2.1) ∧
        (fitsInt ((evs.getLast hne).1.posY + (evs.getLast hne).2.2) →
          rect.y = (evs.getLast hne).1.posY + (evs.getLast hne).2.2) ∧
        displayCalls (popUpMenu raw (reportAll env evs w)).trace =
          displayCalls w.trace ++ [rect] ∧
        w.thread.test_menu ≠ none := by
  obtain ⟨hm, hf⟩ := running_fields env w h hr
  obtain ⟨-, f2, f3, f4, f5, f6⟩ := reportAll_frame env evs w
  obtain ⟨lx, ly⟩ := reportAll_last env evs hne w
  have hpass := popUpMenu_guard_passes raw (reportAll env evs w)
    (by rw [f3, hm]; simp) (by rw [f2, hf])
  rw [f3, f4, f5] at hpass
  refine ⟨_, hpass, rfl, rfl, ?_, ?_, ?_, ?_, ?_, by rw [hm]; simp⟩
  · exact lx
  · exact ly
  · intro hx
    exact lx.trans (storeInt_of_fits env _ hx)
  · intro hy
    exact ly.trans (storeInt_of_fits env _ hy)
  · rw [hpass]
    simp [displayCalls, List.filterMap_append, Call.displayRect] at f6 ⊢
    exact f6

/-- Witness of C2: after the reports (3, 4) and then (120, 340) the display
call is anchored at (120, 340). -/
theorem popUpMenu_anchor_is_last_report_witness :
    Reachable envOk wRunning ∧ phase wRunning.pc = .Running ∧
      fitsInt ((100 : Int) + 20) ∧ fitsInt ((300 : Int) + 40) ∧
      ∃ rect : GdkRectangle,
        popUpMenu rawRect (reportAll envOk [(⟨1, 2⟩, 2, 2), (⟨100, 300⟩, 20, 40)] wRunning) =
            { reportAll envOk [(⟨1, 2⟩, 2, 2), (⟨100, 300⟩, 20, 40)] wRunning with
              trace :=
                (reportAll envOk [(⟨1, 2⟩, 2, 2), (⟨100, 300⟩, 20, 40)] wRunning).trace ++
                  [.gtk_menu_popup_at_rect wRunning.thread.test_menu
                    wRunning.thread.root_window rect .GDK_GRAVITY_NORTH_WEST
                    .GDK_GRAVITY_SOUTH_WEST wRunning.thread.dummy_trigger_event] } ∧
          rect.x = 120 ∧ rect.y = 340 ∧
          displayCalls
              (popUpMenu rawRect
                (reportAll envOk [(⟨1, 2⟩, 2, 2), (⟨100, 300⟩, 20, 40)] wRunning)).trace =
            displayCalls wRunning.trace ++ [rect] := by
  have hx : fitsInt ((100 : Int) + 20) := by unfold fitsInt INT_MIN INT_MAX; decide
  have hy : fitsInt ((300 : Int) + 40) := by unfold fitsInt INT_MIN INT_MAX; decide
  obtain ⟨rect, h1, -, -, -, -, h6, h7, h8, -⟩ :=
    popUpMenu_anchor_is_last_report envOk wRunning ⟨rawThread, opsToMain, rfl⟩ (by decide)
      [(⟨1, 2⟩, 2, 2), (⟨100, 300⟩, 20, 40)] (by simp) rawRect
  exact ⟨⟨rawThread, opsToMain, rfl⟩, by decide, hx, hy, rect, h1, h6 hx, h7 hy, h8⟩

/-- C9, evaluated.  In the Running state `popUpMenu` passes a rectangle
whose width and height are whatever the storage of the local variable held:
with 7 and 9 there, the display call receives width 7 and height 9. -/
theorem popUpMenu_rect_size_is_raw_storage :
    Reachable envOk wRunning ∧ phase wRunning.pc = .Running ∧
      displayCalls (popUpMenu rawRect wRunning).trace =
        [{ x := 0, y := 0, width := 7, height := 9 }] :=
  ⟨⟨rawThread, opsToMain, rfl⟩, by decide, by decide⟩

/-! ## The menu pointer and the loaded flag -/

/-- C8, as stated, fails.  Once the worker has unwound and stopped,
`test_menu` still holds the handle of the destroyed menu while
`fIsGtkLoaded` is false; after `gtk_main` has returned the pointer is not
NULL although shutdown has begun; and right after line 82 the flag is true,
shutdown has not begun, and the pointer is still NULL. -/
theorem test_menu_iff_loaded_fails :
    (Reachable envOk wStopped ∧ phase wStopped.pc = .Stopped ∧
        ¬ (wStopped.thread.test_menu ≠ none ↔
          (wStopped.thread.fIsGtkLoaded = true ∧ begunShutdown wStopped.pc = false))) ∧
      (Reachable envOk wUnwinding ∧
        ¬ (wUnwinding.thread.test_menu ≠ none ↔
          (wUnwinding.thread.fIsGtkLoaded = true ∧ begunShutdown wUnwinding.pc = false))) ∧
      (Reachable envOk wLoadedNoMenu ∧
        ¬ (wLoadedNoMenu.thread.test_menu ≠ none ↔
          (wLoadedNoMenu.thread.fIsGtkLoaded = true ∧
            begunShutdown wLoadedNoMenu.pc = false))) :=
  ⟨⟨⟨rawThread, _, rfl⟩, by decide, by decide⟩, ⟨⟨rawThread, _, rfl⟩, by decide⟩,
    ⟨⟨rawThread, _, rfl⟩, by decide⟩⟩

/-- C8, amended.  In every reachable state: as long as the worker has not
begun shutdown, a `test_menu` that is not NULL implies that `fIsGtkLoaded`
is true; in the Running state `test_menu` is not NULL and `fIsGtkLoaded` is
true; before the thread is started, and in every state when the toolkit
initialisation fails, `test_menu` is NULL and `fIsGtkLoaded` is false. -/
theorem test_menu_loaded_relation (env : Env) (w : World) (h : Reachable env w) :
    (begunShutdown w.pc = false → w.thread.test_menu ≠ none → w.thread.fIsGtkLoaded = true) ∧
      (phase w.pc = .Running → w.thread.test_menu ≠ none ∧ w.thread.fIsGtkLoaded = true) ∧
      (phase w.pc = .NotStarted ∨ env.gtkInitOk = false →
        w.thread.test_menu = none ∧ w.thread.fIsGtkLoaded = false) := by
  obtain ⟨hv, hf, hm⟩ := fields_of_reachable env w h
  refine ⟨?_, ?_, ?_⟩
  · intro hb hne
    rw [hf]
    rw [hm] at hne
    cases hp : w.pc <;> simp [hp, phase, begunShutdown, menuSetAt, loadedAt] at hb hne ⊢
  · intro hr
    obtain ⟨a, b⟩ := running_fields env w h hr
    exact ⟨by rw [a]; simp, b⟩
  · intro hc
    refine unloaded_when_unstarted_or_failed env w h ?_
    rcases hc with hc | hc
    · left
      cases hp : w.pc <;> simp [hp, phase] at hc
      rfl
    · exact Or.inr hc

/-- Witness of the amended C8, at a worker blocked inside `gtk_main`. -/
theorem test_menu_loaded_relation_witness :
    Reachable envOk wRunning ∧ phase wRunning.pc = .Running ∧
      wRunning.thread.test_menu ≠ none ∧ wRunning.thread.fIsGtkLoaded = true :=
  ⟨⟨rawThread, opsToMain, rfl⟩, by decide,
    (test_menu_loaded_relation envOk wRunning ⟨rawThread, opsToMain, rfl⟩).2.1 (by decide)⟩

/-! ## Stopping -/

/-- C4.  `stopThread t` calls `gtk_main_quit` exactly when `fIsGtkLoaded` is
true and in both cases then calls the base `Thread::stopThread` with the
same `t`; it changes no member of the object and does not move the worker.
Where the thread was never started or the toolkit initialisation fails,
`fIsGtkLoaded` is false and the base call is the only call it makes. -/
theorem stopThread_calls (env : Env) (w : World) (t : Int) :
    (w.thread.fIsGtkLoaded = true →
        (stopThread t w).trace =
          w.trace ++ [Call.gtk_main_quit, Call.Thread_stopThread t]) ∧
      (w.thread.fIsGtkLoaded = false →
        (stopThread t w).trace = w.trace ++ [Call.Thread_stopThread t]) ∧
      (stopThread t w).thread = w.thread ∧
      (stopThread t w).pc = w.pc ∧
      (Reachable env w → (w.pc = .notStarted ∨ env.gtkInitOk = false) →
        w.thread.fIsGtkLoaded = false ∧
          (stopThread t w).trace = w.trace ++ [Call.Thread_stopThread t] ∧
          (stopThread t w).trace.filter Call.isToolkit = w.trace.filter Call.isToolkit) := by
  have hon : w.thread.fIsGtkLoaded = true →
      (stopThread t w).trace =
        w.trace ++ [Call.gtk_main_quit, Call.Thread_stopThread t] := by
    intro hl
    simp [stopThread, hl]
  have hoff : w.thread.fIsGtkLoaded = false →
      (stopThread t w).trace = w.trace ++ [Call.Thread_stopThread t] := by
    intro hl
    simp [stopThread, hl]
  have hsame : (stopThread t w).thread = w.thread ∧ (stopThread t w).pc = w.pc := by
    unfold stopThread
    by_cases hl : w.thread.fIsGtkLoaded = true <;> simp [hl]
  refine ⟨hon, hoff, hsame.1, hsame.2, ?_⟩
  intro h hc
  have hl : w.thread.fIsGtkLoaded = false :=
    (unloaded_when_unstarted_or_failed env w h hc).2
  refine ⟨hl, hoff hl, ?_⟩
  rw [hoff hl]
  simp [List.filter_append, Call.isToolkit]

/-- Witness of C4: after a failed initialisation `stopThread 5000` makes the
base class call only. -/
theorem stopThread_calls_witness :
    Reachable envFail wFailed ∧ (wFailed.pc = .notStarted ∨ envFail.gtkInitOk = false) ∧
      (stopThread 5000 wFailed).trace = wFailed.trace ++ [Call.Thread_stopThread 5000] ∧
      (stopThread 5000 wFailed).trace.filter Call.isToolkit =
        wFailed.trace.filter Call.isToolkit :=
  ⟨⟨rawThread, [.startThread, .worker, .worker], rfl⟩, Or.inr rfl,
    ((stopThread_calls envFail wFailed 5000).2.2.2.2
      ⟨rawThread, [.startThread, .worker, .worker], rfl⟩ (Or.inr rfl)).2⟩

/-! ## The input handlers -/

/-- C6.  `onMotion` assigns local position plus window offset to `mouse_X`
and to `mouse_Y`, requests one repaint, returns true, and changes nothing
else of the worker.  Whenever a sum fits an `int` the member holds that sum;
in every case the member holds an `int`. -/
theorem onMotion_stores_position_plus_offset (env : Env) (ev : MotionEvent) (ox oy : Int)
    (w : World) :
    (onMotion env ev ox oy w).1 = true ∧
      (fitsInt (ev.posX + ox) → (onMotion env ev ox oy w).2.thread.mouse_X = ev.posX + ox) ∧
      (fitsInt (ev.posY + oy) → (onMotion env ev ox oy w).2.thread.mouse_Y = ev.posY + oy) ∧
      (fitsInt (ev.posX + ox) → fitsInt (ev.posY + oy) →
        (onMotion env ev ox oy w).2.thread =
          { w.thread with mouse_X := ev.posX + ox, mouse_Y := ev.posY + oy }) ∧
      (onMotion env ev ox oy w).2.trace = w.trace ++ [Call.repaint] ∧
      (onMotion env ev ox oy w).2.thread =
        { w.thread with mouse_X := (onMotion env ev ox oy w).2.thread.mouse_X,
                        mouse_Y := (onMotion env ev ox oy w).2.thread.mouse_Y } ∧
      fitsInt (onMotion env ev ox oy w).2.thread.mouse_X ∧
      fitsInt (onMotion env ev ox oy w).2.thread.mouse_Y ∧
      (onMotion env ev ox oy w).2.pc = w.pc ∧
      (onMotion env ev ox oy w).2.nextHandle = w.nextHandle ∧
      (onMotion env ev ox oy w).2.quitDelivered = w.quitDelivered := by
  refine ⟨rfl, ?_, ?_, ?_, rfl, rfl, storeInt_fits env _, storeInt_fits env _, rfl, rfl, rfl⟩
  · intro hx
    exact storeInt_of_fits env _ hx
  · intro hy
    exact storeInt_of_fits env _ hy
  · intro hx hy
    simp [onMotion, storeInt_of_fits env _ hx, storeInt_of_fits env _ hy]

/-- Witness of C6: position (100, 300) with window offset (20, 40) on a
running worker stores (120, 340). -/
theorem onMotion_stores_position_plus_offset_witness :
    fitsInt ((100 : Int) + 20) ∧ fitsInt ((300 : Int) + 40) ∧
      (onMotion envOk ⟨100, 300⟩ 20 40 wRunning).2.thread.mouse_X = 120 ∧
      (onMotion envOk ⟨100, 300⟩ 20 40 wRunning).2.thread.mouse_Y = 340 ∧
      (onMotion envOk ⟨100, 300⟩ 20 40 wRunning).2.thread =
        { wRunning.thread with mouse_X := 120, mouse_Y := 340 } := by
  have hx : fitsInt ((100 : Int) + 20) := by unfold fitsInt INT_MIN INT_MAX; decide
  have hy : fitsInt ((300 : Int) + 40) := by unfold fitsInt INT_MIN INT_MAX; decide
  have h := onMotion_stores_position_plus_offset envOk ⟨100, 300⟩ 20 40 wRunning
  exact ⟨hx, hy, h.2.1 hx, h.2.2.1 hy, h.2.2.2.1 hx hy⟩

theorem popUpMenu_one_call (raw : GdkRectangle) (w : World) :
    ∃ c, popUpMenu raw w = { w with trace := w.trace ++ [c] } := by
  unfold popUpMenu
  split
  · exact ⟨_, rfl⟩
  · exact ⟨_, rfl⟩

theorem popUpMenu_ne_self (raw : GdkRectangle) (w : World) : popUpMenu raw w ≠ w := by
  obtain ⟨c, hc⟩ := popUpMenu_one_call raw w
  intro h
  have := congrArg (fun x => x.trace.length) (hc.symm.trans h)
  simp at this

/-- C7.  `onMouse` returns true for every event and every state, and for a
press of the right button its whole effect is one run of `popUpMenu`, which
makes exactly one call. -/
theorem onMouse_right_press (env : Env) (ev : MouseEvent) (raw : GdkRectangle) (w : World) :
    (onMouse env ev raw w).1 = true ∧
      (ev.button = env.kMouseButtonRight → ev.press = true →
        (onMouse env ev raw w).2 = popUpMenu raw w ∧
          ∃ c, (onMouse env ev raw w).2 = { w with trace := w.trace ++ [c] }) := by
  refine ⟨rfl, ?_⟩
  intro hb _
  have h : (onMouse env ev raw w).2 = popUpMenu raw w := by simp [onMouse, hb]
  exact ⟨h, by rw [h]; exact popUpMenu_one_call raw w⟩

/-- Witness of C7: a right button press on a worker that is not started. -/
theorem onMouse_right_press_witness :
    (⟨3, true, 10, 20⟩ : MouseEvent).button = envOk.kMouseButtonRight ∧
      (⟨3, true, 10, 20⟩ : MouseEvent).press = true ∧
      (onMouse envOk ⟨3, true, 10, 20⟩ rawRect (World.initial rawThread)).2 =
        popUpMenu rawRect (World.initial rawThread) :=
  ⟨rfl, rfl,
    ((onMouse_right_press envOk ⟨3, true, 10, 20⟩ rawRect (World.initial rawThread)).2
      rfl rfl).1⟩

/-- C10.  `onMouse` runs `popUpMenu` when the button of the event is the
right button and does nothing otherwise; the press flag does not enter: a
release of the right button requests a popup as a press does, so a press
followed by a release runs `popUpMenu` twice. -/
theorem onMouse_ignores_press_flag (env : Env) (ev : MouseEvent) (raw raw2 : GdkRectangle)
    (w : World) :
    (ev.button = env.kMouseButtonRight →
        (onMouse env ev raw w).2 = popUpMenu raw w ∧ (onMouse env ev raw w).2 ≠ w) ∧
      (ev.button ≠ env.kMouseButtonRight → (onMouse env ev raw w).2 = w) ∧
      (∀ b : Bool, onMouse env { ev with press := b } raw w = onMouse env ev raw w) ∧
      (ev.button = env.kMouseButtonRight →
        (onMouse env { ev with press := false } raw2
            (onMouse env { ev with press := true } raw w).2).2 =
          popUpMenu raw2 (popUpMenu raw w)) := by
  refine ⟨?_, ?_, ?_, ?_⟩
  · intro hb
    have h : (onMouse env ev raw w).2 = popUpMenu raw w := by simp [onMouse, hb]
    exact ⟨h, by rw [h]; exact popUpMenu_ne_self raw w⟩
  · intro hb
    simp [onMouse, hb]
  · intro b
    rfl
  · intro hb
    simp [onMouse, hb]

/-- Witness of C10: a right button release on a running worker displays the
menu, and press then release displays it twice. -/
theorem onMouse_ignores_press_flag_witness :
    (⟨3, false, 10, 20⟩ : MouseEvent).button = envOk.kMouseButtonRight ∧
      (onMouse envOk ⟨3, false, 10, 20⟩ rawRect wRunning).2 = popUpMenu rawRect wRunning ∧
      (onMouse envOk ⟨3, false, 10, 20⟩ rawRect
          (onMouse envOk ⟨3, true, 10, 20⟩ rawRect wRunning).2).2 =
        popUpMenu rawRect (popUpMenu rawRect wRunning) :=
  ⟨rfl,
    ((onMouse_ignores_press_flag envOk ⟨3, false, 10, 20⟩ rawRect rawRect wRunning).1 rfl).1,
    (onMouse_ignores_press_flag envOk ⟨3, false, 10, 20⟩ rawRect rawRect wRunning).2.2.2 rfl⟩

/-! ## Failed initialisation -/

theorem canon_calls_failed (env : Env) (raw : NativeMenuThread) (pc : Pc)
    (hfail : env.gtkInitOk = false) (hv : pcValid env pc) :
    (canon env raw pc).trace.filter Call.byWorker <+:
      [Call.gtk_init_check false, Call.d_stderr2 "ERROR: Cannot init GTK!"] := by
  obtain ⟨ok, sc, rt, dp, st, pt, kr, ov⟩ := env
  simp only at hfail
  subst hfail
  cases pc with
  | notStarted => exact ⟨_, rfl⟩
  | l76 => exact ⟨_, rfl⟩
  | l78 => exact ⟨[Call.d_stderr2 "ERROR: Cannot init GTK!"], rfl⟩
  | returned => exact ⟨[], rfl⟩
  | l96 i => exact absurd hv.1 (by simp)
  | l100 i => exact absurd hv.1 (by simp)
  | _ => exact absurd hv (by simp [pcValid])

theorem step_pc_returned (env : Env) (w : World) (op : Op) (h : w.pc = .returned) :
    (step env w op).pc = .returned := by
  cases op with
  | startThread => simp [step, startThread, h]
  | worker => simp [step, workerStep, advance, h]
  | popUpMenu r =>
      have := congrArg View.pc (view_popUpMenu r w)
      simpa [view_pc, h, step] using this
  | onMouse ev r =>
      have := congrArg View.pc (view_onMouse env ev r w)
      simpa [view_pc, h, step] using this
  | onMotion ev ox oy =>
      have := congrArg View.pc (view_onMotion env ev ox oy w)
      simpa [view_pc, h, step] using this
  | stopThread t =>
      have := congrArg View.pc (view_stopThread t w)
      simpa [view_pc, h, step] using this

theorem exec_pc_returned (env : Env) (ops : List Op) :
    ∀ w : World, w.pc = .returned → (exec env w ops).pc = .returned := by
  induction ops with
  | nil => intro w h; exact h
  | cons op rest ih =>
      intro w h
      exact ih (step env w op) (step_pc_returned env w op h)

/-- C3.  When `gtk_init_check` fails, `run` makes two calls, the failed
initialisation and one error diagnostic, changes no member and returns.  In
every continuation from thread entry, under any operations, `fIsGtkLoaded`
stays false, `test_menu` stays NULL, `gtk_main` is never called, the calls
of the worker never go beyond those two, and once returned the worker stays
returned. -/
theorem run_init_failure (env : Env) (w : World) (hfail : env.gtkInitOk = false)
    (h : Reachable env w) (hpc : w.pc = .l76) :
    (exec env w [.worker, .worker]).pc = .returned ∧
      (exec env w [.worker, .worker]).trace =
        w.trace ++ [Call.gtk_init_check false, Call.d_stderr2 "ERROR: Cannot init GTK!"] ∧
      (exec env w [.worker, .worker]).thread = w.thread ∧
      (∀ ops : List Op,
        (exec env w ops).thread.fIsGtkLoaded = false ∧
          (exec env w ops).thread.test_menu = none ∧
          Call.gtk_main ∉ (exec env w ops).trace ∧
          (exec env w ops).trace.filter Call.byWorker <+:
            [Call.gtk_init_check false, Call.d_stderr2 "ERROR: Cannot init GTK!"]) ∧
      (∀ ops : List Op, (exec env (exec env w [.worker, .worker]) ops).pc = .returned) := by
  have e2 : exec env w [.worker, .worker] =
      { w with pc := .returned,
               trace := w.trace ++
                 [Call.gtk_init_check false, Call.d_stderr2 "ERROR: Cannot init GTK!"] } := by
    simp [exec, step, workerStep, advance, hpc, hfail]
  refine ⟨by rw [e2], by rw [e2], by rw [e2], ?_, ?_⟩
  · intro ops
    have hr := reachable_exec env w ops h
    obtain ⟨hm, hf⟩ := unloaded_when_unstarted_or_failed env _ hr (Or.inr hfail)
    obtain ⟨raw, hi⟩ := inv_of_reachable env _ hr
    obtain ⟨-, -, -, ht⟩ := inv_thread env raw _ hi
    have hp := canon_calls_failed env raw (exec env w ops).pc hfail hi.1
    rw [← ht] at hp
    refine ⟨hf, hm, ?_, hp⟩
    intro hmem
    have h1 : Call.gtk_main ∈ (exec env w ops).trace.filter Call.byWorker :=
      List.mem_filter.mpr ⟨hmem, rfl⟩
    have h2 := hp.subset h1
    simp at h2
  · intro ops
    exact exec_pc_returned env ops _ (by rw [e2])

/-- Witness of C3, from the thread entry of a worker whose toolkit fails to
initialise. -/
theorem run_init_failure_witness :
    envFail.gtkInitOk = false ∧ Reachable envFail wEntryFail ∧ wEntryFail.pc = .l76 ∧
      (exec envFail wEntryFail [.worker, .worker]).pc = .returned ∧
      (exec envFail wEntryFail [.worker, .worker]).trace =
        wEntryFail.trace ++
          [Call.gtk_init_check false, Call.d_stderr2 "ERROR: Cannot init GTK!"] :=
  ⟨rfl, ⟨rawThread, [.startThread], rfl⟩, rfl,
    (run_init_failure envFail wEntryFail rfl ⟨rawThread, [.startThread], rfl⟩ rfl).1,
    (run_init_failure envFail wEntryFail rfl ⟨rawThread, [.startThread], rfl⟩ rfl).2.1⟩

/-! ## The menu built by `run` -/

theorem filterMap_workerCalls {β : Type} (f : Call → Option β)
    (hf : ∀ c, Call.byWorker c = false → f c = none) (tr : List Call) :
    (tr.filter Call.byWorker).filterMap f = tr.filterMap f := by
  induction tr with
  | nil => rfl
  | cons c rest ih =>
      cases hc : Call.byWorker c with
      | true => simp [List.filter_cons, hc, List.filterMap_cons, ih]
      | false => simp [List.filter_cons, hc, List.filterMap_cons, hf c hc, ih]

theorem menuChildren_workerCalls (tr : List Call) (menu : Ptr) :
    menuChildren (tr.filter Call.byWorker) menu = menuChildren tr menu := by
  unfold menuChildren
  apply filterMap_workerCalls
  intro c hc
  cases c <;> simp [Call.byWorker] at hc ⊢

theorem itemLabels_workerCalls (tr : List Call) (item : Ptr) :
    itemLabels (tr.filter Call.byWorker) item = itemLabels tr item := by
  unfold itemLabels
  apply filterMap_workerCalls
  intro c hc
  cases c <;> simp [Call.byWorker] at hc ⊢

theorem activateHandlers_workerCalls (tr : List Call) (item : Ptr) :
    activateHandlers (tr.filter Call.byWorker) item = activateHandlers tr item := by
  unfold activateHandlers
  apply filterMap_workerCalls
  intro c hc
  cases c <;> simp [Call.byWorker] at hc ⊢

theorem menuItemText_values :
    menuItemText 0 = "MenuItem 0" ∧ menuItemText 1 = "MenuItem 1" ∧
      menuItemText 2 = "MenuItem 2" := by
  decide

theorem callback_text :
    "Clicked menu item: " ++ "MenuItem 1" = "Clicked menu item: MenuItem 1" := by
  decide

theorem canon_main_trace (env : Env) (raw : NativeMenuThread) (hok : env.gtkInitOk = true) :
    (canon env raw .inMain).trace = mainCalls env := by
  simp [canon, runFrom, stmtIndex, advance, World.initial, mainCalls, hok,
    Function.iterate_succ, NativeMenuThread.ctor, ItemArray.get]

theorem canon_main_items (env : Env) (raw : NativeMenuThread) (hok : env.gtkInitOk = true) :
    (canon env raw .inMain).thread.test_menu = some 0 ∧
      (canon env raw .inMain).thread.test_menu_item = ⟨some 1, some 2, some 3⟩ := by
  simp [canon, runFrom, stmtIndex, advance, World.initial, hok,
    Function.iterate_succ, NativeMenuThread.ctor]

theorem mainCalls_menu (env : Env) :
    menuChildren (mainCalls env) (some 0) = [some 1, some 2, some 3] ∧
      itemLabels (mainCalls env) (some 1) = ["MenuItem 0"] ∧
      itemLabels (mainCalls env) (some 2) = ["MenuItem 1"] ∧
      itemLabels (mainCalls env) (some 3) = ["MenuItem 2"] ∧
      activateHandlers (mainCalls env) (some 1) = ["MenuItem 0"] ∧
      activateHandlers (mainCalls env) (some 2) = ["MenuItem 1"] ∧
      activateHandlers (mainCalls env) (some 3) = ["MenuItem 2"] := by
  obtain ⟨t0, t1, t2⟩ := menuItemText_values
  refine ⟨rfl, rfl, rfl, rfl, ?_, ?_, ?_⟩
  · rw [← t0]; rfl
  · rw [← t1]; rfl
  · rw [← t2]; rfl

theorem iterate_view_congr (env : Env) (w w' : World) (h : view w = view w') (k : Nat) :
    view ((advance env)^[k] w) = view ((advance env)^[k] w') := by
  induction k with
  | zero => exact h
  | succ k ih =>
      rw [Function.iterate_succ_apply', Function.iterate_succ_apply']
      exact view_advance_congr env _ _ ih

theorem exec_workers (env : Env) (w : World) (k : Nat)
    (hk : ∀ j, j < k → ((advance env)^[j] w).pc ≠ .inMain) :
    exec env w (List.replicate k .worker) = (advance env)^[k] w := by
  induction k with
  | zero => rfl
  | succ k ih =>
      rw [List.replicate_succ', exec_append, ih (fun j hj => hk j (Nat.lt_succ_of_lt hj)),
        Function.iterate_succ_apply']
      have hne := hk k (Nat.lt_succ_self k)
      simp [exec, step, workerStep, hne]

theorem runFrom_pc_before_main (env : Env) (raw : NativeMenuThread)
    (hok : env.gtkInitOk = true) (j : Nat) (hj : j < 22) :
    (runFrom env raw j).pc ≠ .inMain := by
  interval_cases j <;>
    simp [runFrom, advance, World.initial, hok, Function.iterate_succ]

theorem run_reaches_main (env : Env) (raw : NativeMenuThread) (w : World)
    (hi : WorkerInv env raw w) (hpc : w.pc = .l76) (hok : env.gtkInitOk = true) :
    (exec env w (List.replicate 22 .worker)).pc = .inMain := by
  have hv : view w = view (runFrom env raw 0) := by
    have := hi.2
    rw [hpc] at this
    exact this
  have hiter : ∀ j, view ((advance env)^[j] w) = view (runFrom env raw j) := fun j =>
    iterate_view_congr env w (runFrom env raw 0) hv j
  have hpcs : ∀ j, ((advance env)^[j] w).pc = (runFrom env raw j).pc := fun j => by
    have := congrArg View.pc (hiter j)
    simpa [view_pc] using this
  rw [exec_workers env w 22 (fun j hj => by
    rw [hpcs j]; exact runFrom_pc_before_main env raw hok j hj), hpcs 22]
  exact canon_pc env raw .inMain hok

/-- C5.  After a successful initialisation `run` reaches `gtk_main`, and
whenever the worker is inside `gtk_main` the menu has exactly the three
items of `test_menu_item`, appended in index order, created with the labels
MenuItem 0, MenuItem 1 and MenuItem 2, each with exactly one handler of
`activate` whose payload is the label of the item; activating item 1 runs
`menu_item_callback` once, with payload MenuItem 1. -/
theorem run_builds_menu (env : Env) (w : World) (h : Reachable env w) (hpc : w.pc = .l76)
    (hok : env.gtkInitOk = true) :
    (exec env w (List.replicate 22 .worker)).pc = .inMain ∧
      ∀ ops : List Op, (exec env w ops).pc = .inMain →
        ∃ m i0 i1 i2 : Nat,
          (exec env w ops).thread.test_menu = some m ∧
          (exec env w ops).thread.test_menu_item = ⟨some i0, some i1, some i2⟩ ∧
          menuChildren (exec env w ops).trace (some m) = [some i0, some i1, some i2] ∧
          itemLabels (exec env w ops).trace (some i0) = ["MenuItem 0"] ∧
          itemLabels (exec env w ops).trace (some i1) = ["MenuItem 1"] ∧
          itemLabels (exec env w ops).trace (some i2) = ["MenuItem 2"] ∧
          activateHandlers (exec env w ops).trace (some i0) = ["MenuItem 0"] ∧
          activateHandlers (exec env w ops).trace (some i1) = ["MenuItem 1"] ∧
          activateHandlers (exec env w ops).trace (some i2) = ["MenuItem 2"] ∧
          (activate (some i1) (exec env w ops)).trace =
            (exec env w ops).trace ++ [Call.d_stderr "Clicked menu item: MenuItem 1"] := by
  constructor
  · obtain ⟨raw, hi⟩ := inv_of_reachable env w h
    exact run_reaches_main env raw w hi hpc hok
  · intro ops hmain
    obtain ⟨raw, hi⟩ := inv_of_reachable env _ (reachable_exec env w ops h)
    obtain ⟨-, hm, hit, htr⟩ := inv_thread env raw _ hi
    rw [hmain] at hm hit htr
    obtain ⟨cm, ci⟩ := canon_main_items env raw hok
    rw [cm] at hm
    rw [ci] at hit
    rw [canon_main_trace env raw hok] at htr
    obtain ⟨k0, l1, l2, l3, a1, a2, a3⟩ := mainCalls_menu env
    have e1 := menuChildren_workerCalls (exec env w ops).trace (some 0)
    have e2 : ∀ it, itemLabels (exec env w ops).trace it =
        itemLabels ((mainCalls env).filter Call.byWorker) it := fun it => by
      rw [← htr]; exact (itemLabels_workerCalls _ it).symm
    have e3 : ∀ it, activateHandlers (exec env w ops).trace it =
        activateHandlers ((mainCalls env).filter Call.byWorker) it := fun it => by
      rw [← htr]; exact (activateHandlers_workerCalls _ it).symm
    have hfilt : (mainCalls env).filter Call.byWorker = mainCalls env := rfl
    rw [hfilt] at e2 e3 htr
    rw [htr] at e1
    refine ⟨0, 1, 2, 3, hm, hit, ?_, ?_, ?_, ?_, ?_, ?_, ?_, ?_⟩
    · rw [← e1, ← hfilt, menuChildren_workerCalls]; exact k0
    · rw [e2]; exact l1
    · rw [e2]; exact l2
    · rw [e2]; exact l3
    · rw [e3]; exact a1
    · rw [e3]; exact a2
    · rw [e3]; exact a3
    · unfold activate
      rw [e3, a2]
      simp [menu_item_callback, callback_text]

/-- Witness of C5, from the thread entry of a worker whose toolkit
initialises: the run reaches `gtk_main`. -/
theorem run_builds_menu_witness :
    Reachable envOk wEntryOk ∧ wEntryOk.pc = .l76 ∧ envOk.gtkInitOk = true ∧
      (exec envOk wEntryOk (List.replicate 22 .worker)).pc = .inMain :=
  ⟨⟨rawThread, [.startThread], rfl⟩, rfl, rfl,
    (run_builds_menu envOk wEntryOk ⟨rawThread, [.startThread], rfl⟩ rfl rfl).1⟩

end NativeMenu

